import Mathlib

/-!
# lynx-seata: the Seata plugin of the Lynx framework

A shallow embedding of `seata.go`, `health.go` and `metrics.go`.

* Go `error` values are represented by their message; `none` is the `nil` error.
* A Go pointer (or interface) that may be `nil` is an `Option`; dereferencing
  goes through `deref`, which yields a `Panic` on `nil`.
* `time.Duration` is a signed count of nanoseconds (`Int`).
* A Go `string` that reaches the Prometheus library as a label value is a
  sequence of bytes (`GoString`): such a string need not be valid UTF-8, and
  `WithLabelValues` panics when it is not.
* The package-level variables `metrics` and `metricsOnce`, and the events the
  package causes outside itself (log lines, calls received by the transaction
  driver), live in an explicit `World` that every stateful function threads.
* The transaction driver `tm.WithGlobalTx` of seata-go and the configuration
  source of the host are external: they are parameters of the functions that
  call them.
-/

namespace LynxSeata

/-! ## Values shared by the three source files -/

/-- Go `error`, by message; the `nil` error is `none`. -/
abbrev GoErr := Option String

/-- A byte. -/
abbrev Byte := Fin 256

/-- A Go `string`: any sequence of bytes, valid UTF-8 or not. -/
abbrev GoString := List Byte

/-- The Go string that a string literal denotes: its UTF-8 encoding. -/
def goString (s : String) : GoString :=
  (s.toList.flatMap String.utf8EncodeChar).map fun b => b.val

/-- A UTF-8 continuation byte, `0x80` to `0xBF`. -/
def isContinuation (b : Byte) : Bool :=
  0x80 ≤ b.val && b.val ≤ 0xBF

/-- Go's `utf8.ValidString`: the bytes are a sequence of well-formed UTF-8
encodings (no overlong form, no surrogate, nothing above U+10FFFF). -/
def utf8Valid : GoString → Bool
  | [] => true
  | b0 :: rest =>
    if b0.val < 0x80 then utf8Valid rest
    else if 0xC2 ≤ b0.val && b0.val ≤ 0xDF then
      match rest with
      | b1 :: r => isContinuation b1 && utf8Valid r
      | _ => false
    else if 0xE0 ≤ b0.val && b0.val ≤ 0xEF then
      match rest with
      | b1 :: b2 :: r =>
        (if b0.val = 0xE0 then 0xA0 ≤ b1.val && b1.val ≤ 0xBF
          else if b0.val = 0xED then 0x80 ≤ b1.val && b1.val ≤ 0x9F
          else isContinuation b1)
          && isContinuation b2 && utf8Valid r
      | _ => false
    else if 0xF0 ≤ b0.val && b0.val ≤ 0xF4 then
      match rest with
      | b1 :: b2 :: b3 :: r =>
        (if b0.val = 0xF0 then 0x90 ≤ b1.val && b1.val ≤ 0xBF
          else if b0.val = 0xF4 then 0x80 ≤ b1.val && b1.val ≤ 0x8F
          else isContinuation b1)
          && isContinuation b2 && isContinuation b3 && utf8Valid r
      | _ => false
    else false

/-- Run-time panics the embedded code could raise: a `nil` dereference, and
the panic of Prometheus `WithLabelValues` on a label value that is not valid
UTF-8. -/
inductive Panic where
  | nilDereference
  | invalidLabelValue (lv : GoString)
  deriving DecidableEq, Repr

/-- Dereference of a pointer that may be `nil`. -/
def deref {α : Type} : Option α → Except Panic α
  | some a => .ok a
  | none => .error .nilDereference

/-- Nanoseconds in `time.Second`. -/
def Second : Int := 1000000000

/-- The `context.Context` handed through to the driver and the business function. -/
structure Context where
  done : Bool
  deadline : Option Int
  deriving DecidableEq, Repr

/-- An IEEE-754 double, kept as its bit pattern: the code only stores and
forwards such values, it never computes with them. -/
structure Float64 where
  bits : Nat
  deriving DecidableEq, Repr

/-! ## Plugin metadata (seata.go, lines 16-32) -/

def pluginName : String := "seata.server"

def pluginVersion : String := "v2.0.0"

def pluginDescription : String := "Seata distributed transaction plugin for Lynx framework"

def confPrefix : String := "lynx.seata"

def defaultTransactionTimeout : Int := 60 * Second

/-! ## Configuration message -/

/-- Modelled from the spec: the generated message type `conf.Seata` (package
`conf` of this repository), which the spec describes as
`PluginConfiguration { enabled: bool, configFilePath: string }`. -/
structure conf.Seata where
  Enabled : Bool
  ConfigFilePath : String
  deriving DecidableEq, Repr

/-- Modelled from the spec: the generated getter `(*conf.Seata).GetEnabled`,
which reads the enabled flag and answers `false` on a `nil` receiver. -/
def conf.Seata.GetEnabled (x : Option conf.Seata) : Bool :=
  match x with
  | some s => s.Enabled
  | none => false

/-- Modelled from the spec: the generated getter `(*conf.Seata).GetConfigFilePath`,
which reads the path and answers the empty string on a `nil` receiver. -/
def conf.Seata.GetConfigFilePath (x : Option conf.Seata) : String :=
  match x with
  | some s => s.ConfigFilePath
  | none => ""

/-! ## Metrics instruments (metrics.go)

The instruments come from the Prometheus client library. A counter vector
with the single label `status` is a count per label value, a gauge is the
value last set, a histogram vector with the single label `status` is the
sequence of observations per label value. `WithLabelValues` is given one
value for the one label, so the only way it panics is a label value that is
not valid UTF-8. -/

structure CounterVec where
  counts : GoString → Nat

structure Gauge where
  value : Float64

structure HistogramVec where
  observations : GoString → List Float64

/-- The effect of `c.WithLabelValues(lv).Inc()`: a panic when `lv` is not valid
UTF-8, else one more on the counter labelled `lv`. -/
def CounterVec.WithLabelValuesInc (c : CounterVec) (lv : GoString) : Except Panic CounterVec :=
  if utf8Valid lv then
    .ok ⟨fun s => if s = lv then c.counts s + 1 else c.counts s⟩
  else
    .error (.invalidLabelValue lv)

/-- The effect of `h.WithLabelValues(lv).Observe(v)`: a panic when `lv` is not
valid UTF-8, else one more observation in the histogram labelled `lv`. -/
def HistogramVec.WithLabelValuesObserve (h : HistogramVec) (lv : GoString) (v : Float64) :
    Except Panic HistogramVec :=
  if utf8Valid lv then
    .ok ⟨fun s => if s = lv then h.observations s ++ [v] else h.observations s⟩
  else
    .error (.invalidLabelValue lv)

/-- The effect of `g.Set(v)`. -/
def Gauge.Set (_g : Gauge) (v : Float64) : Gauge :=
  ⟨v⟩

/-- The struct `SeataMetrics`: six instruments, each of which may be unset. -/
structure SeataMetrics where
  transactionsTotal : Option CounterVec
  transactionsActive : Option Gauge
  transactionDuration : Option HistogramVec
  branchTransactions : Option Gauge
  healthCheckTotal : Option CounterVec
  healthCheckDuration : Option HistogramVec

/-- The function `newSeataMetrics`: all six instruments freshly created. -/
def newSeataMetrics : SeataMetrics :=
  { transactionsTotal := some ⟨fun _ => 0⟩
    transactionsActive := some ⟨⟨0⟩⟩
    transactionDuration := some ⟨fun _ => []⟩
    branchTransactions := some ⟨⟨0⟩⟩
    healthCheckTotal := some ⟨fun _ => 0⟩
    healthCheckDuration := some ⟨fun _ => []⟩ }

/-- Method `RecordTransaction` on a `*SeataMetrics` receiver. -/
def SeataMetrics.RecordTransaction (m : Option SeataMetrics) (status : GoString) :
    Except Panic (Option SeataMetrics) :=
  match m with
  | none => pure m
  | some s =>
    if s.transactionsTotal.isSome then do
      let c ← deref s.transactionsTotal
      let c1 ← c.WithLabelValuesInc status
      pure (some { s with transactionsTotal := some c1 })
    else pure m

/-- Method `RecordTransactionDuration` on a `*SeataMetrics` receiver. -/
def SeataMetrics.RecordTransactionDuration (m : Option SeataMetrics) (status : GoString)
    (duration : Float64) : Except Panic (Option SeataMetrics) :=
  match m with
  | none => pure m
  | some s =>
    if s.transactionDuration.isSome then do
      let h ← deref s.transactionDuration
      let h1 ← h.WithLabelValuesObserve status duration
      pure (some { s with transactionDuration := some h1 })
    else pure m

/-- Method `SetActiveTransactions` on a `*SeataMetrics` receiver. -/
def SeataMetrics.SetActiveTransactions (m : Option SeataMetrics) (count : Float64) :
    Except Panic (Option SeataMetrics) :=
  match m with
  | none => pure m
  | some s =>
    if s.transactionsActive.isSome then do
      let g ← deref s.transactionsActive
      pure (some { s with transactionsActive := some (g.Set count) })
    else pure m

/-- Method `SetBranchTransactions` on a `*SeataMetrics` receiver. -/
def SeataMetrics.SetBranchTransactions (m : Option SeataMetrics) (count : Float64) :
    Except Panic (Option SeataMetrics) :=
  match m with
  | none => pure m
  | some s =>
    if s.branchTransactions.isSome then do
      let g ← deref s.branchTransactions
      pure (some { s with branchTransactions := some (g.Set count) })
    else pure m

/-- Method `RecordHealthCheck` on a `*SeataMetrics` receiver. -/
def SeataMetrics.RecordHealthCheck (m : Option SeataMetrics) (status : GoString) :
    Except Panic (Option SeataMetrics) :=
  match m with
  | none => pure m
  | some s =>
    if s.healthCheckTotal.isSome then do
      let c ← deref s.healthCheckTotal
      let c1 ← c.WithLabelValuesInc status
      pure (some { s with healthCheckTotal := some c1 })
    else pure m

/-! ## The world outside the plugin value -/

/-- The per-call configuration `tm.GtxConfig` of the transaction driver. -/
structure GtxConfig where
  Timeout : Int
  Name : String
  deriving DecidableEq, Repr

/-- Events the package causes, or that reach its collaborators. -/
inductive Event where
  | log (level : String) (msg : String)
  | driverCall (gc : GtxConfig)
  | businessRun
  deriving DecidableEq, Repr

/-- Package-level state (`metrics`, `metricsOnce`) and the event trace. -/
structure World where
  metrics : Option SeataMetrics
  metricsOnceDone : Bool
  trace : List Event

/-- A business function `func(context.Context) error`. -/
abbrev Business := Context → World → GoErr × World

/-- The signature of the external driver `tm.WithGlobalTx`. -/
abbrev Driver := Context → GtxConfig → Business → World → GoErr × World

/-- The function `GetMetrics`: the package variable, as it is. -/
def GetMetrics (w : World) : Option SeataMetrics :=
  w.metrics

/-! ## The plugin (seata.go) -/

/-- What `plugins.NewBasePlugin` is given. -/
structure BasePlugin where
  id : String
  name : String
  description : String
  version : String
  configKey : String
  weight : Int
  deriving DecidableEq, Repr

structure TxSeataClient where
  base : BasePlugin
  conf : Option conf.Seata
  deriving DecidableEq, Repr

/-- The constructor `NewTxSeataClient`; `GeneratePluginID` belongs to the host
framework and is a parameter. -/
def NewTxSeataClient (GeneratePluginID : String → String → String → String) : TxSeataClient :=
  { base :=
      { id := GeneratePluginID "" pluginName pluginVersion
        name := pluginName
        description := pluginDescription
        version := pluginVersion
        configKey := confPrefix
        weight := 90 }
    conf := none }

/-- The host's configuration source, as `InitializeResources` uses it:
`rt.GetConfig().Value(key).Scan(dest)` decodes the sub-tree at `key` into the
message `dest` points to and reports an error or `nil`. -/
structure Runtime where
  scan : String → conf.Seata → GoErr × conf.Seata

/-- Method `InitializeResources`. -/
def TxSeataClient.InitializeResources (t : TxSeataClient) (rt : Runtime) :
    GoErr × TxSeataClient :=
  let t1 : TxSeataClient := { t with conf := some { Enabled := false, ConfigFilePath := "" } }
  let (err, c) := rt.scan confPrefix { Enabled := false, ConfigFilePath := "" }
  let t2 : TxSeataClient := { t1 with conf := some c }
  if err ≠ none then
    (err, t2)
  else if c.ConfigFilePath = "" then
    (none, { t2 with conf := some { c with ConfigFilePath := "./conf/seata.yml" } })
  else
    (none, t2)

/-- A value of the empty interface `any`, as `Configure` can tell them apart:
the `nil` interface, a `*conf.Seata` (itself possibly a nil pointer), or a
value of some other dynamic type. -/
inductive AnyValue where
  | nil
  | seataPtr (p : Option conf.Seata)
  | other (typeName : String)
  deriving DecidableEq, Repr

/-- Method `Configure`. -/
def TxSeataClient.Configure (t : TxSeataClient) (cfg : AnyValue) : GoErr × TxSeataClient :=
  match cfg with
  | .nil => (none, t)
  | .other _ => (some "invalid configuration type, expected *conf.Seata", t)
  | .seataPtr c => (none, { t with conf := c })

/-- Method `GetConfig`. -/
def TxSeataClient.GetConfig (t : TxSeataClient) : Option conf.Seata :=
  t.conf

/-- Method `GetConfigFilePath`. -/
def TxSeataClient.GetConfigFilePath (t : TxSeataClient) : String :=
  if t.conf = none then
    "./conf/seata.yml"
  else
    conf.Seata.GetConfigFilePath t.conf

/-- Method `IsEnabled`. -/
def TxSeataClient.IsEnabled (t : TxSeataClient) : Bool :=
  if t.conf = none then
    false
  else
    conf.Seata.GetEnabled t.conf

/-- Method `WithGlobalTx`; the driver `tm.WithGlobalTx` is the first argument. -/
def TxSeataClient.WithGlobalTx (tmWithGlobalTx : Driver) (t : TxSeataClient) (ctx : Context)
    (name : String) (timeout : Int) (business : Business) (w : World) : GoErr × World :=
  if !t.IsEnabled then
    (some "seata plugin is disabled", w)
  else
    let timeout := if timeout = 0 then defaultTransactionTimeout else timeout
    let gc : GtxConfig := { Timeout := timeout, Name := name }
    tmWithGlobalTx ctx gc business w

/-! ## Lazy metrics and health (metrics.go, health.go) -/

/-- Method `getMetrics`: `nil` when disabled, else the package variable after
the once-only initialisation. -/
def TxSeataClient.getMetrics (t : TxSeataClient) (w : World) : Option SeataMetrics × World :=
  if !t.IsEnabled then
    (none, w)
  else
    let w1 : World :=
      if w.metricsOnceDone then w
      else { w with metrics := some newSeataMetrics, metricsOnceDone := true }
    (w1.metrics, w1)

/-- Method `CheckHealth`. -/
def TxSeataClient.CheckHealth (t : TxSeataClient) (w : World) : Except Panic (GoErr × World) :=
  if !t.IsEnabled then
    pure (none, w)
  else if t.conf = none then
    pure (some "seata configuration is nil", w)
  else if conf.Seata.GetConfigFilePath t.conf = "" then
    pure (some "seata config file path is empty", w)
  else do
    let (m1, w1) := t.getMetrics w
    let w3 ← if m1.isSome then do
        let (m2, w2) := t.getMetrics w1
        let m3 ← SeataMetrics.RecordHealthCheck m2 (goString "success")
        pure { w2 with metrics := m3 }
      else pure w1
    pure (none, { w3 with trace := w3.trace ++ [Event.log "debug" "Seata client health check passed"] })

/-! ## Observation helpers used in the statements -/

/-- A driver that notes the call it receives and runs the business function once. -/
def recordingDriver : Driver :=
  fun ctx gc business w => business ctx { w with trace := w.trace ++ [Event.driverCall gc] }

/-- A business function that notes its run and returns `result`. -/
def countingBusiness (result : GoErr) : Business :=
  fun _ctx w => (result, { w with trace := w.trace ++ [Event.businessRun] })

/-- The configurations handed to the driver, in order. -/
def handedConfigs (w : World) : List GtxConfig :=
  w.trace.filterMap fun e => match e with
    | .driverCall gc => some gc
    | _ => none

/-- How often a business function ran. -/
def businessRuns (w : World) : Nat :=
  w.trace.count Event.businessRun

/-- Reading of `transactions_total` for a status (0 while the instrument does not exist). -/
def transactionsTotalOf (w : World) (status : String) : Nat :=
  match w.metrics with
  | some m => match m.transactionsTotal with
    | some c => c.counts (goString status)
    | none => 0
  | none => 0

/-- Observations of `transaction_duration_seconds` for a status. -/
def transactionDurationOf (w : World) (status : String) : List Float64 :=
  match w.metrics with
  | some m => match m.transactionDuration with
    | some h => h.observations (goString status)
    | none => []
  | none => []

/-- A world in which nothing has happened yet. -/
def World.initial : World :=
  { metrics := none, metricsOnceDone := false, trace := [] }

/-- A stand-in for the host framework's `GeneratePluginID`. -/
def sampleGeneratePluginID : String → String → String → String :=
  fun org name version => org ++ name ++ "-" ++ version

/-- A plugin that has never loaded a configuration. -/
def freshPlugin : TxSeataClient :=
  NewTxSeataClient sampleGeneratePluginID

/-- A plugin configured as enabled with path `./conf/seata.yml`. -/
def enabledPlugin : TxSeataClient :=
  (freshPlugin.Configure (.seataPtr (some { Enabled := true, ConfigFilePath := "./conf/seata.yml" }))).2

/-- A plugin configured as enabled, through `Configure`, with an empty path. -/
def enabledEmptyPathPlugin : TxSeataClient :=
  (freshPlugin.Configure (.seataPtr (some { Enabled := true, ConfigFilePath := "" }))).2

/-- A plugin configured as disabled with an empty path. -/
def disabledPlugin : TxSeataClient :=
  (freshPlugin.Configure (.seataPtr (some { Enabled := false, ConfigFilePath := "" }))).2

/-- A context that is neither cancelled nor bounded. -/
def background : Context :=
  { done := false, deadline := none }

/-- The world right after an enabled plugin first asked for the metrics registry. -/
def readyWorld : World :=
  (enabledPlugin.getMetrics World.initial).2

/-- A configuration source whose decoding fails. -/
def failingRuntime : Runtime :=
  { scan := fun _ dest => (some "config: key not found", dest) }

/-- A configuration source that yields an enabled configuration without a path. -/
def emptyPathRuntime : Runtime :=
  { scan := fun _ dest => (none, { dest with Enabled := true }) }

/-- A configuration source that yields an enabled configuration with its own path. -/
def customPathRuntime : Runtime :=
  { scan := fun _ _ => (none, { Enabled := true, ConfigFilePath := "/etc/seata/client.yml" }) }

/-! ## Basic facts -/

theorem isEnabled_eq_true_iff (t : TxSeataClient) :
    t.IsEnabled = true ↔ ∃ c, t.conf = some c ∧ c.Enabled = true := by
  cases t with
  | mk base conf =>
    cases conf with
    | none => simp [TxSeataClient.IsEnabled]
    | some c => simp [TxSeataClient.IsEnabled, conf.Seata.GetEnabled]

theorem isEnabled_eq_false_iff (t : TxSeataClient) :
    t.IsEnabled = false ↔ t.conf = none ∨ ∃ c, t.conf = some c ∧ c.Enabled = false := by
  cases t with
  | mk base conf =>
    cases conf with
    | none => simp [TxSeataClient.IsEnabled]
    | some c => simp [TxSeataClient.IsEnabled, conf.Seata.GetEnabled]

/-! ## The global transaction wrapper -/

/-- C1: on a plugin for which `IsEnabled` is false, `WithGlobalTx` returns the
error "seata plugin is disabled" and leaves the world as it was, whatever the
driver and the business function are; with the recording driver and a counting
business function, no configuration reaches the driver and the business
function runs zero times. -/
theorem WithGlobalTx_disabled_rejects (t : TxSeataClient) (h : t.IsEnabled = false)
    (drv : Driver) (ctx : Context) (name : String) (timeout : Int) (business : Business)
    (w : World) :
    TxSeataClient.WithGlobalTx drv t ctx name timeout business w
        = (some "seata plugin is disabled", w)
      ∧ ∀ r : GoErr,
          handedConfigs
              (TxSeataClient.WithGlobalTx recordingDriver t ctx name timeout
                (countingBusiness r) w).2 = handedConfigs w
            ∧ businessRuns
                (TxSeataClient.WithGlobalTx recordingDriver t ctx name timeout
                  (countingBusiness r) w).2 = businessRuns w := by
  simp [TxSeataClient.WithGlobalTx, h]

theorem WithGlobalTx_disabled_rejects_witness :
    disabledPlugin.IsEnabled = false
      ∧ freshPlugin.IsEnabled = false
      ∧ TxSeataClient.WithGlobalTx recordingDriver disabledPlugin background "order-create" 0
            (countingBusiness none) World.initial
          = (some "seata plugin is disabled", World.initial)
      ∧ TxSeataClient.WithGlobalTx recordingDriver freshPlugin background "order-create" 0
            (countingBusiness none) World.initial
          = (some "seata plugin is disabled", World.initial) :=
  ⟨by decide, by decide,
    (WithGlobalTx_disabled_rejects disabledPlugin (by decide) recordingDriver background
      "order-create" 0 (countingBusiness none) World.initial).1,
    (WithGlobalTx_disabled_rejects freshPlugin (by decide) recordingDriver background
      "order-create" 0 (countingBusiness none) World.initial).1⟩

/-- C2: on an enabled plugin `WithGlobalTx` is the driver applied once to the
same context, the configuration with the given name and with the timeout
replaced by 60 seconds when it is zero, and the same business function; the
driver outcome is returned as it is. With the recording driver exactly one
configuration reaches the driver and the business function runs once. -/
theorem WithGlobalTx_enabled_delegates (t : TxSeataClient) (h : t.IsEnabled = true)
    (drv : Driver) (ctx : Context) (name : String) (timeout : Int) (business : Business)
    (w : World) :
    TxSeataClient.WithGlobalTx drv t ctx name timeout business w
        = drv ctx { Timeout := if timeout = 0 then 60 * 1000000000 else timeout, Name := name }
            business w
      ∧ ∀ r : GoErr,
          (TxSeataClient.WithGlobalTx recordingDriver t ctx name timeout
              (countingBusiness r) w).1 = r
            ∧ handedConfigs
                (TxSeataClient.WithGlobalTx recordingDriver t ctx name timeout
                  (countingBusiness r) w).2
              = handedConfigs w
                  ++ [{ Timeout := if timeout = 0 then 60 * 1000000000 else timeout,
                        Name := name }]
            ∧ businessRuns
                (TxSeataClient.WithGlobalTx recordingDriver t ctx name timeout
                  (countingBusiness r) w).2 = businessRuns w + 1 := by
  refine ⟨?_, fun r => ⟨?_, ?_, ?_⟩⟩
  · simp [TxSeataClient.WithGlobalTx, h, defaultTransactionTimeout, Second]
  · simp [TxSeataClient.WithGlobalTx, h, recordingDriver, countingBusiness]
  · simp [TxSeataClient.WithGlobalTx, h, recordingDriver, countingBusiness, handedConfigs,
      List.filterMap_append, defaultTransactionTimeout, Second]
  · simp [TxSeataClient.WithGlobalTx, h, recordingDriver, countingBusiness, businessRuns,
      List.count_append]

theorem WithGlobalTx_enabled_delegates_witness :
    enabledPlugin.IsEnabled = true
      ∧ TxSeataClient.WithGlobalTx recordingDriver enabledPlugin background "order-create" 0
            (countingBusiness none) World.initial
          = recordingDriver background
              { Timeout := if (0 : Int) = 0 then 60 * 1000000000 else 0, Name := "order-create" }
              (countingBusiness none) World.initial :=
  ⟨by decide,
    (WithGlobalTx_enabled_delegates enabledPlugin (by decide) recordingDriver background
      "order-create" 0 (countingBusiness none) World.initial).1⟩

/-- C9 (as stated) fails: an enabled plugin called with the timeout of minus one
nanosecond hands that negative timeout to the driver. -/
theorem WithGlobalTx_timeout_positive_counterexample :
    enabledPlugin.IsEnabled = true
      ∧ ¬ ∀ gc ∈ handedConfigs
            (TxSeataClient.WithGlobalTx recordingDriver enabledPlugin background "order-create"
              (-1) (countingBusiness none) World.initial).2,
          0 < gc.Timeout := by
  decide

/-- C9 (amended): on an enabled plugin the configuration handed to the driver
carries 60 seconds when the given timeout is zero and the given timeout itself
otherwise; so the handed timeout is never zero, and it is strictly positive
whenever the given timeout is not negative. -/
theorem WithGlobalTx_timeout_handed (t : TxSeataClient) (h : t.IsEnabled = true)
    (name : String) (timeout : Int) :
    ∃ gc : GtxConfig,
      (∀ (drv : Driver) (ctx : Context) (business : Business) (w : World),
          TxSeataClient.WithGlobalTx drv t ctx name timeout business w = drv ctx gc business w)
        ∧ (∀ (ctx : Context) (r : GoErr) (w : World),
            handedConfigs
                (TxSeataClient.WithGlobalTx recordingDriver t ctx name timeout
                  (countingBusiness r) w).2 = handedConfigs w ++ [gc])
        ∧ gc.Name = name
        ∧ (timeout = 0 → gc.Timeout = 60 * 1000000000)
        ∧ (timeout ≠ 0 → gc.Timeout = timeout)
        ∧ gc.Timeout ≠ 0
        ∧ (0 ≤ timeout → 0 < gc.Timeout) := by
  refine ⟨{ Timeout := if timeout = 0 then defaultTransactionTimeout else timeout,
            Name := name }, ?_, ?_, rfl, ?_, ?_, ?_, ?_⟩
  · intro drv ctx business w
    simp [TxSeataClient.WithGlobalTx, h]
  · intro ctx r w
    simp [TxSeataClient.WithGlobalTx, h, recordingDriver, countingBusiness, handedConfigs,
      List.filterMap_append]
  · intro h0
    simp [h0, defaultTransactionTimeout, Second]
  · intro h0
    simp [h0]
  · by_cases h0 : timeout = 0
    · simp [h0, defaultTransactionTimeout, Second]
    · simp [h0]
  · intro hpos
    by_cases h0 : timeout = 0
    · simp [h0, defaultTransactionTimeout, Second]
    · simp only [h0, if_false]
      omega

theorem WithGlobalTx_timeout_handed_witness :
    enabledPlugin.IsEnabled = true
      ∧ ∃ gc : GtxConfig,
          (∀ (drv : Driver) (ctx : Context) (business : Business) (w : World),
              TxSeataClient.WithGlobalTx drv enabledPlugin ctx "order-create" 0 business w
                = drv ctx gc business w)
            ∧ gc.Timeout ≠ 0 :=
  ⟨by decide,
    (WithGlobalTx_timeout_handed enabledPlugin (by decide) "order-create" 0).elim
      fun gc hgc => ⟨gc, hgc.1, hgc.2.2.2.2.2.1⟩⟩

/-- C7 (as stated) fails: with the registry in place, an enabled plugin, the
recording driver and a business function that succeeds, `WithGlobalTx`
returns success, yet `transactions_total` for "success" is not one higher and
`transaction_duration_seconds` for "success" has no new observation. -/
theorem WithGlobalTx_metrics_counterexample :
    enabledPlugin.IsEnabled = true
      ∧ (TxSeataClient.WithGlobalTx recordingDriver enabledPlugin background "order-create" 0
            (countingBusiness none) readyWorld).1 = none
      ∧ ¬ transactionsTotalOf
            (TxSeataClient.WithGlobalTx recordingDriver enabledPlugin background "order-create" 0
              (countingBusiness none) readyWorld).2 "success"
          = transactionsTotalOf readyWorld "success" + 1
      ∧ ¬ (transactionDurationOf
            (TxSeataClient.WithGlobalTx recordingDriver enabledPlugin background "order-create" 0
              (countingBusiness none) readyWorld).2 "success").length
          = (transactionDurationOf readyWorld "success").length + 1 := by
  decide

/-- C7 (amended): on an enabled plugin `WithGlobalTx` returns what the driver
returns (success when the driver reports success) and leaves the metrics
registry exactly as the driver run left it; when that run does not touch the
registry, the readings of `transactions_total` and of
`transaction_duration_seconds` are the same after the call as before, for
every status. -/
theorem WithGlobalTx_adds_no_metrics (t : TxSeataClient) (h : t.IsEnabled = true)
    (drv : Driver) (ctx : Context) (name : String) (timeout : Int) (business : Business)
    (w : World) :
    (TxSeataClient.WithGlobalTx drv t ctx name timeout business w).1
        = (drv ctx { Timeout := if timeout = 0 then 60 * 1000000000 else timeout, Name := name }
            business w).1
      ∧ (TxSeataClient.WithGlobalTx drv t ctx name timeout business w).2.metrics
        = (drv ctx { Timeout := if timeout = 0 then 60 * 1000000000 else timeout, Name := name }
            business w).2.metrics
      ∧ ((drv ctx { Timeout := if timeout = 0 then 60 * 1000000000 else timeout, Name := name }
            business w).2.metrics = w.metrics →
          ∀ status : String,
            transactionsTotalOf
                (TxSeataClient.WithGlobalTx drv t ctx name timeout business w).2 status
              = transactionsTotalOf w status
            ∧ transactionDurationOf
                (TxSeataClient.WithGlobalTx drv t ctx name timeout business w).2 status
              = transactionDurationOf w status) := by
  have e : TxSeataClient.WithGlobalTx drv t ctx name timeout business w
      = drv ctx { Timeout := if timeout = 0 then 60 * 1000000000 else timeout, Name := name }
          business w := by
    simp [TxSeataClient.WithGlobalTx, h, defaultTransactionTimeout, Second]
  refine ⟨by rw [e], by rw [e], ?_⟩
  intro hm status
  rw [e]
  unfold transactionsTotalOf transactionDurationOf
  rw [hm]
  exact ⟨rfl, rfl⟩

theorem WithGlobalTx_adds_no_metrics_witness :
    enabledPlugin.IsEnabled = true
      ∧ (TxSeataClient.WithGlobalTx recordingDriver enabledPlugin background "order-create" 0
            (countingBusiness none) readyWorld).2.metrics
        = (recordingDriver background
            { Timeout := if (0 : Int) = 0 then 60 * 1000000000 else 0, Name := "order-create" }
            (countingBusiness none) readyWorld).2.metrics :=
  ⟨by decide,
    (WithGlobalTx_adds_no_metrics enabledPlugin (by decide) recordingDriver background
      "order-create" 0 (countingBusiness none) readyWorld).2.1⟩

/-! ## The configuration holder -/

/-- C3: `Configure` with the nil interface returns no error and leaves the
plugin as it was; with a value that is not a `*conf.Seata` it returns an error
and leaves the plugin, and so the held configuration, as it was; with a
`*conf.Seata` it returns no error and `GetConfig` afterwards returns that very
pointer, the rest of the plugin being unchanged. -/
theorem Configure_cases (t : TxSeataClient) :
    t.Configure .nil = (none, t)
      ∧ (∀ typeName : String,
          (t.Configure (.other typeName)).1
              = some "invalid configuration type, expected *conf.Seata"
            ∧ (t.Configure (.other typeName)).2 = t
            ∧ (t.Configure (.other typeName)).2.GetConfig = t.GetConfig)
      ∧ (∀ p : Option conf.Seata,
          (t.Configure (.seataPtr p)).1 = none
            ∧ (t.Configure (.seataPtr p)).2.GetConfig = p
            ∧ (t.Configure (.seataPtr p)).2.base = t.base) := by
  refine ⟨rfl, fun _ => ⟨rfl, rfl, rfl⟩, fun _ => ⟨rfl, rfl, rfl⟩⟩

/-- C4 (as stated) fails: a plugin whose enabled configuration with an empty
path was installed through `Configure` answers the empty string, not the
default path. -/
theorem GetConfigFilePath_default_counterexample :
    (freshPlugin.Configure
        (.seataPtr (some { Enabled := true, ConfigFilePath := "" }))).1 = none
      ∧ conf.Seata.GetConfigFilePath enabledEmptyPathPlugin.GetConfig = ""
      ∧ enabledEmptyPathPlugin.GetConfigFilePath = ""
      ∧ enabledEmptyPathPlugin.GetConfigFilePath ≠ "./conf/seata.yml" := by
  decide

/-- C4 (amended): `GetConfigFilePath` returns "./conf/seata.yml" when no
configuration is held, and the path of the held configuration, as it is,
otherwise: a non-empty path is returned unchanged and an empty path is
returned as the empty string. -/
theorem GetConfigFilePath_cases (t : TxSeataClient) :
    (t.conf = none → t.GetConfigFilePath = "./conf/seata.yml")
      ∧ (∀ c : conf.Seata, t.conf = some c → t.GetConfigFilePath = c.ConfigFilePath)
      ∧ (∀ c : conf.Seata, t.conf = some c → c.ConfigFilePath ≠ "" →
          t.GetConfigFilePath = c.ConfigFilePath ∧ t.GetConfigFilePath ≠ "") := by
  refine ⟨?_, ?_, ?_⟩
  · intro h
    simp [TxSeataClient.GetConfigFilePath, h]
  · intro c h
    simp [TxSeataClient.GetConfigFilePath, h, conf.Seata.GetConfigFilePath]
  · intro c h hne
    simp [TxSeataClient.GetConfigFilePath, h, conf.Seata.GetConfigFilePath, hne]

theorem GetConfigFilePath_cases_witness :
    (freshPlugin.conf = none → freshPlugin.GetConfigFilePath = "./conf/seata.yml")
      ∧ freshPlugin.conf = none
      ∧ enabledPlugin.conf = some { Enabled := true, ConfigFilePath := "./conf/seata.yml" }
      ∧ enabledPlugin.GetConfigFilePath = "./conf/seata.yml"
      ∧ enabledEmptyPathPlugin.conf = some { Enabled := true, ConfigFilePath := "" }
      ∧ enabledEmptyPathPlugin.GetConfigFilePath = "" :=
  ⟨(GetConfigFilePath_cases freshPlugin).1, by decide, by decide,
    (GetConfigFilePath_cases enabledPlugin).2.1
      { Enabled := true, ConfigFilePath := "./conf/seata.yml" } (by decide),
    by decide,
    (GetConfigFilePath_cases enabledEmptyPathPlugin).2.1
      { Enabled := true, ConfigFilePath := "" } (by decide)⟩

/-- C10: when decoding the sub-tree at "lynx.seata" fails, `InitializeResources`
returns that error; when it succeeds, `InitializeResources` returns no error
and the held configuration has the decoded enabled flag and a non-empty path:
the decoded path when that is non-empty, "./conf/seata.yml" when it is empty. -/
theorem InitializeResources_cases (t : TxSeataClient) (rt : Runtime) :
    confPrefix = "lynx.seata"
      ∧ (∀ e : String,
          (rt.scan "lynx.seata" { Enabled := false, ConfigFilePath := "" }).1 = some e →
            (t.InitializeResources rt).1 = some e)
      ∧ ((rt.scan "lynx.seata" { Enabled := false, ConfigFilePath := "" }).1 = none →
          (t.InitializeResources rt).1 = none
            ∧ ∃ c : conf.Seata,
                (t.InitializeResources rt).2.GetConfig = some c
                  ∧ c.Enabled
                      = (rt.scan "lynx.seata" { Enabled := false, ConfigFilePath := "" }).2.Enabled
                  ∧ c.ConfigFilePath ≠ ""
                  ∧ c.ConfigFilePath
                      = (if (rt.scan "lynx.seata"
                              { Enabled := false, ConfigFilePath := "" }).2.ConfigFilePath = ""
                        then "./conf/seata.yml"
                        else (rt.scan "lynx.seata"
                              { Enabled := false, ConfigFilePath := "" }).2.ConfigFilePath)) := by
  refine ⟨rfl, ?_, ?_⟩
  · intro e he
    simp only [TxSeataClient.InitializeResources, confPrefix]
    rw [he]
    simp
  · intro hnone
    simp only [TxSeataClient.InitializeResources, confPrefix, TxSeataClient.GetConfig]
    rw [hnone]
    by_cases hp : (rt.scan "lynx.seata" { Enabled := false, ConfigFilePath := "" }).2.ConfigFilePath
        = ""
    · simp [hp]
    · simp [hp]

theorem InitializeResources_cases_witness :
    (failingRuntime.scan "lynx.seata" { Enabled := false, ConfigFilePath := "" }).1
        = some "config: key not found"
      ∧ (freshPlugin.InitializeResources failingRuntime).1 = some "config: key not found"
      ∧ (emptyPathRuntime.scan "lynx.seata" { Enabled := false, ConfigFilePath := "" }).1 = none
      ∧ (freshPlugin.InitializeResources emptyPathRuntime).1 = none
      ∧ (customPathRuntime.scan "lynx.seata" { Enabled := false, ConfigFilePath := "" }).1 = none
      ∧ (freshPlugin.InitializeResources customPathRuntime).1 = none :=
  ⟨by decide,
    (InitializeResources_cases freshPlugin failingRuntime).2.1 _ (by decide),
    by decide,
    ((InitializeResources_cases freshPlugin emptyPathRuntime).2.2 (by decide)).1,
    by decide,
    ((InitializeResources_cases freshPlugin customPathRuntime).2.2 (by decide)).1⟩

/-! ## The metrics registry -/

theorem RecordHealthCheck_ok (m : Option SeataMetrics) (status : GoString)
    (hs : utf8Valid status = true) :
    ∃ m1, SeataMetrics.RecordHealthCheck m status = .ok m1 := by
  cases m with
  | none => exact ⟨none, rfl⟩
  | some s =>
    cases hc : s.healthCheckTotal with
    | none => exact ⟨some s, by simp [SeataMetrics.RecordHealthCheck, hc, pure, Except.pure]⟩
    | some c =>
      exact ⟨_, by simp [SeataMetrics.RecordHealthCheck, hc, deref, pure, Except.pure, bind,
        Except.bind, CounterVec.WithLabelValuesInc, hs]; rfl⟩

/-- C8 (as stated) fails: on a registry with all six instruments set, each of
`RecordTransaction`, `RecordTransactionDuration` and `RecordHealthCheck`
panics when the status is the one-byte Go string "\xff", which is not valid
UTF-8. -/
theorem recording_operations_panic_counterexample :
    utf8Valid [0xff] = false
      ∧ SeataMetrics.RecordTransaction (some newSeataMetrics) [0xff]
          = .error (.invalidLabelValue [0xff])
      ∧ SeataMetrics.RecordTransactionDuration (some newSeataMetrics) [0xff] ⟨0⟩
          = .error (.invalidLabelValue [0xff])
      ∧ SeataMetrics.RecordHealthCheck (some newSeataMetrics) [0xff]
          = .error (.invalidLabelValue [0xff]) :=
  ⟨by decide, rfl, rfl, rfl⟩

/-- C8 (amended): on every registry value and with every argument, each of the
five recording operations ends normally with the registry it was given when
the registry is nil or the instrument it names is unset. When that instrument
is set, `SetActiveTransactions` and `SetBranchTransactions` end normally with
the gauge holding the given value, and `RecordTransaction`,
`RecordTransactionDuration` and `RecordHealthCheck` with a status that is
valid UTF-8 end normally with one more on the counter (one more observation
in the histogram) labelled by the status, every other label as before; in
each case the five other instruments are as before. With a status that is not
valid UTF-8 and the instrument set, the three labelled operations panic. -/
theorem recording_operations_cases (m : Option SeataMetrics) (status : GoString)
    (v : Float64) :
    SeataMetrics.RecordTransaction m status
        = (match m with
          | none => .ok none
          | some s => match s.transactionsTotal with
            | none => .ok (some s)
            | some c =>
              if utf8Valid status = true then
                .ok (some { s with
                  transactionsTotal :=
                    some ⟨fun l => if l = status then c.counts l + 1 else c.counts l⟩ })
              else .error (.invalidLabelValue status))
      ∧ SeataMetrics.RecordTransactionDuration m status v
        = (match m with
          | none => .ok none
          | some s => match s.transactionDuration with
            | none => .ok (some s)
            | some h =>
              if utf8Valid status = true then
                .ok (some { s with
                  transactionDuration :=
                    some ⟨fun l => if l = status then h.observations l ++ [v]
                      else h.observations l⟩ })
              else .error (.invalidLabelValue status))
      ∧ SeataMetrics.SetActiveTransactions m v
        = .ok (match m with
          | none => none
          | some s => match s.transactionsActive with
            | none => some s
            | some _ => some { s with transactionsActive := some ⟨v⟩ })
      ∧ SeataMetrics.SetBranchTransactions m v
        = .ok (match m with
          | none => none
          | some s => match s.branchTransactions with
            | none => some s
            | some _ => some { s with branchTransactions := some ⟨v⟩ })
      ∧ SeataMetrics.RecordHealthCheck m status
        = (match m with
          | none => .ok none
          | some s => match s.healthCheckTotal with
            | none => .ok (some s)
            | some c =>
              if utf8Valid status = true then
                .ok (some { s with
                  healthCheckTotal :=
                    some ⟨fun l => if l = status then c.counts l + 1 else c.counts l⟩ })
              else .error (.invalidLabelValue status)) := by
  cases m with
  | none => exact ⟨rfl, rfl, rfl, rfl, rfl⟩
  | some s =>
    obtain ⟨a, b, c, d, e, f⟩ := s
    refine ⟨?_, ?_, ?_, ?_, ?_⟩
    · cases a with
      | none => rfl
      | some x =>
        cases hs : utf8Valid status <;>
          simp [SeataMetrics.RecordTransaction, deref, CounterVec.WithLabelValuesInc, hs, bind,
            Except.bind, pure, Except.pure]
    · cases c with
      | none => rfl
      | some x =>
        cases hs : utf8Valid status <;>
          simp [SeataMetrics.RecordTransactionDuration, deref,
            HistogramVec.WithLabelValuesObserve, hs, bind, Except.bind, pure, Except.pure]
    · cases b <;> rfl
    · cases d <;> rfl
    · cases e with
      | none => rfl
      | some x =>
        cases hs : utf8Valid status <;>
          simp [SeataMetrics.RecordHealthCheck, deref, CounterVec.WithLabelValuesInc, hs, bind,
            Except.bind, pure, Except.pure]

theorem recording_operations_cases_witness :
    utf8Valid (goString "success") = true
      ∧ SeataMetrics.RecordTransaction (some newSeataMetrics) (goString "success")
          = .ok (some { newSeataMetrics with
              transactionsTotal :=
                some ⟨fun l => if l = goString "success" then 0 + 1 else 0⟩ })
      ∧ SeataMetrics.RecordTransaction none [0xff] = .ok none
      ∧ SeataMetrics.SetActiveTransactions (some newSeataMetrics) ⟨7⟩
          = .ok (some { newSeataMetrics with transactionsActive := some ⟨⟨7⟩⟩ }) :=
  ⟨by decide,
    (recording_operations_cases (some newSeataMetrics) (goString "success") ⟨0⟩).1,
    (recording_operations_cases none [0xff] ⟨0⟩).1,
    (recording_operations_cases (some newSeataMetrics) [] ⟨7⟩).2.2.1⟩

/-! ## The health reporter -/

/-- C6: on a plugin for which `IsEnabled` is false, `CheckHealth` ends normally
with success and leaves the world as it was, whatever configuration is held;
a freshly constructed plugin is not enabled and its `CheckHealth` succeeds. -/
theorem CheckHealth_disabled_succeeds (t : TxSeataClient) (h : t.IsEnabled = false) (w : World)
    (GeneratePluginID : String → String → String → String) :
    t.CheckHealth w = .ok (none, w)
      ∧ (NewTxSeataClient GeneratePluginID).IsEnabled = false
      ∧ (NewTxSeataClient GeneratePluginID).CheckHealth w = .ok (none, w) := by
  refine ⟨?_, rfl, rfl⟩
  simp [TxSeataClient.CheckHealth, h, pure, Except.pure]

theorem CheckHealth_disabled_succeeds_witness :
    disabledPlugin.IsEnabled = false
      ∧ disabledPlugin.GetConfig = some { Enabled := false, ConfigFilePath := "" }
      ∧ disabledPlugin.CheckHealth World.initial = .ok (none, World.initial) :=
  ⟨by decide, by decide,
    (CheckHealth_disabled_succeeds disabledPlugin (by decide) World.initial
      sampleGeneratePluginID).1⟩

/-- C5: on an enabled plugin `CheckHealth` ends normally, with the error "seata
configuration is nil" when no configuration is held, with the error "seata
config file path is empty" when the held path is empty, and with success in
every other case; in the two error cases the world is left as it was. The
first case never arises: an enabled plugin always holds a configuration. -/
theorem CheckHealth_enabled_cases (t : TxSeataClient) (h : t.IsEnabled = true) (w : World) :
    (t.conf = none → t.CheckHealth w = .ok (some "seata configuration is nil", w))
      ∧ (∀ c : conf.Seata, t.conf = some c → c.ConfigFilePath = "" →
          t.CheckHealth w = .ok (some "seata config file path is empty", w))
      ∧ (∀ c : conf.Seata, t.conf = some c → c.ConfigFilePath ≠ "" →
          ∃ w1 : World, t.CheckHealth w = .ok (none, w1))
      ∧ t.conf ≠ none := by
  refine ⟨?_, ?_, ?_, ?_⟩
  · intro hc
    simp [TxSeataClient.CheckHealth, h, hc, pure, Except.pure]
  · intro c hc hp
    simp [TxSeataClient.CheckHealth, h, hc, hp, conf.Seata.GetConfigFilePath, pure, Except.pure]
  · intro c hc hp
    simp only [TxSeataClient.CheckHealth, TxSeataClient.getMetrics, h, hc,
      conf.Seata.GetConfigFilePath, hp]
    simp only [Bool.not_true, Bool.false_eq_true, if_false, reduceCtorEq]
    cases hm : Option.isSome (if w.metricsOnceDone = true then w
        else { w with metrics := some newSeataMetrics, metricsOnceDone := true }).metrics with
    | false => exact ⟨_, rfl⟩
    | true =>
      obtain ⟨m1, hm1⟩ := RecordHealthCheck_ok
        (if (if w.metricsOnceDone = true then w
            else { w with metrics := some newSeataMetrics, metricsOnceDone := true }).metricsOnceDone
            = true
          then (if w.metricsOnceDone = true then w
            else { w with metrics := some newSeataMetrics, metricsOnceDone := true })
          else { (if w.metricsOnceDone = true then w
            else { w with metrics := some newSeataMetrics, metricsOnceDone := true }) with
              metrics := some newSeataMetrics, metricsOnceDone := true }).metrics
        (goString "success") (by decide)
      simp only [if_true, bind, Except.bind, hm1, pure, Except.pure]
      exact ⟨_, rfl⟩
  · intro hc
    simp [TxSeataClient.IsEnabled, hc] at h

theorem CheckHealth_enabled_cases_witness :
    enabledEmptyPathPlugin.IsEnabled = true
      ∧ enabledEmptyPathPlugin.conf = some { Enabled := true, ConfigFilePath := "" }
      ∧ enabledEmptyPathPlugin.CheckHealth World.initial
          = .ok (some "seata config file path is empty", World.initial)
      ∧ enabledPlugin.IsEnabled = true
      ∧ enabledPlugin.conf = some { Enabled := true, ConfigFilePath := "./conf/seata.yml" }
      ∧ ∃ w1 : World, enabledPlugin.CheckHealth World.initial = .ok (none, w1) :=
  ⟨by decide, by decide,
    (CheckHealth_enabled_cases enabledEmptyPathPlugin (by decide) World.initial).2.1
      { Enabled := true, ConfigFilePath := "" } (by decide) (by decide),
    by decide, by decide,
    (CheckHealth_enabled_cases enabledPlugin (by decide) World.initial).2.2.1
      { Enabled := true, ConfigFilePath := "./conf/seata.yml" } (by decide) (by decide)⟩

end LynxSeata
